/-
Verification of the client refresh coordinator of the web-blog repository.

Embedded source:
  * src/client/src/utils/api.ts — the axios response interceptor implementing
    single-flight token refresh (module state `isRefreshing` /
    `refreshSubscribers`, helpers `onRefreshComplete`, `waitForRefresh`,
    `handleRefreshFailure`, and the interceptor's error handler).
  * src/client/src/context/AuthContext.tsx — the `logout` operation of the
    auth provider.

Modelling conventions:
  * JavaScript is single-threaded; every synchronous section of the
    interceptor (between `await` points) runs atomically with respect to the
    event loop.  The coordinator is therefore embedded as a deterministic
    step function over an explicit state, driven by a list of events: an
    invocation of the response interceptor's error handler, the resolution
    of the in-flight refresh round-trip, and a caller-side abort.
  * The continuation of the request that initiated the refresh (the code
    suspended at `await axios.post(...)`) is implicit in JavaScript; here it
    is made explicit as the `inFlight` field of the coordinator state.
  * `window.location.href = '/login?...'` in `handleRefreshFailure` is
    recorded as a `redirected` flag (the navigation target's exact text,
    `/login?redirect=` plus the URI-encoded current path, is not needed by
    any property).
-/
import Mathlib

namespace WebBlog

/-- A request configuration, as the interceptor sees it
(`error.config` in api.ts). `retry` is the custom `_retry` flag,
`skipAuthRedirect` the custom `_skipAuthRedirect` flag; `rid` identifies
the request so that actions can refer to it. -/
structure Req where
  url : String
  retry : Bool
  skipAuthRedirect : Bool
  rid : Nat
deriving DecidableEq, Repr

/-- The error object passed to the response interceptor's rejection handler:
`status` is `error.response?.status` (`none` when there was no response),
`config` the originating request, `errId` identifies this particular error
object so that "rejects with the original error" is expressible. -/
structure ApiError where
  status : Option Nat
  config : Req
  errId : Nat
deriving DecidableEq, Repr

/-- api.ts line 25: paths whose 401s bypass the refresh/redirect machinery. -/
def SKIP_AUTH_REDIRECT : List String :=
  ["/api/auth/me", "/api/auth/login", "/api/auth/logout", "/api/auth/refresh"]

/-- Substring test on char lists: JavaScript `haystack.includes(needle)`. -/
def includesAux (needle : List Char) : List Char → Bool
  | [] => needle.isEmpty
  | c :: rest => needle.isPrefixOf (c :: rest) || includesAux needle rest

/-- JavaScript `s.includes(pattern)`. -/
def stringIncludes (s pattern : String) : Bool :=
  includesAux pattern.toList s.toList

/-- api.ts line 52: `SKIP_AUTH_REDIRECT.some(path => requestUrl.includes(path))`. -/
def isAuthEndpoint (requestUrl : String) : Bool :=
  SKIP_AUTH_REDIRECT.any fun path => stringIncludes requestUrl path

/-- An entry of the refresh wait queue: the continuation a 401-failed request
registered via `waitForRefresh()` (api.ts lines 38–42), together with the
request and the original error captured in its closure. -/
structure Waiter where
  req : Req
  errId : Nat
deriving DecidableEq, Repr

/-- The coordinator's state: module-level `isRefreshing` (api.ts line 28) and
`refreshSubscribers` (line 29), plus the initiating request's continuation
suspended at `await axios.post(.../refresh)` (implicit in JS, explicit here). -/
structure CoordState where
  isRefreshing : Bool
  inFlight : Option Waiter
  refreshSubscribers : List Waiter
deriving DecidableEq, Repr

/-- Module load state: `isRefreshing = false`, empty subscriber list. -/
def initState : CoordState := ⟨false, none, []⟩

/-- What `handleRefreshFailure` did: whether it assigned
`window.location.href` (navigating to the login page), and the error its
returned promise rejects with. -/
structure FailureOutcome where
  redirected : Bool
  rejectedWith : Nat
deriving DecidableEq, Repr

/-- api.ts lines 98–109: redirect to `/login?redirect=<current path>` unless
the request opted out via `_skipAuthRedirect` or we are already on `/login`;
in every case reject with the original error. -/
def handleRefreshFailure (config : Req) (currentPath : String) (errId : Nat) :
    FailureOutcome :=
  let skipByConfig := config.skipAuthRedirect == true
  if !skipByConfig then
    if currentPath != "/login" then
      { redirected := true, rejectedWith := errId }
    else
      { redirected := false, rejectedWith := errId }
  else
    { redirected := false, rejectedWith := errId }

/-- Observable effects of a coordinator step. -/
inductive Action where
  /-- the call `axios.post(API_BASE_URL + '/api/auth/refresh', ...)` issued (line 74). -/
  | refreshCall
  /-- a `Promise.reject(error)` with the original error object (lines 56, 93). -/
  | rejected (errId : Nat)
  /-- continuation pushed onto `refreshSubscribers` (line 40). -/
  | enqueued (rid : Nat)
  /-- the request re-issued via `api(originalRequest)`, with its `_retry` value. -/
  | retried (rid : Nat) (retryFlag : Bool)
  /-- a run of `handleRefreshFailure(config, error)` with this outcome. -/
  | failedOriginal (outcome : FailureOutcome)
deriving DecidableEq, Repr

/-- The wait-queue entry a 401-failed request contributes. -/
def toWaiter (e : ApiError) : Waiter := ⟨e.config, e.errId⟩

/-- api.ts lines 47–94: the response interceptor's error handler, from the
top of the handler to its first suspension (or return).  Returns the new
coordinator state and the observable actions of this synchronous section. -/
def interceptorOnError (s : CoordState) (e : ApiError) :
    CoordState × List Action :=
  if e.status = some 401 then
    if isAuthEndpoint e.config.url || e.config.retry then
      (s, [.rejected e.errId])
    else if s.isRefreshing then
      ({ s with refreshSubscribers := s.refreshSubscribers ++ [toWaiter e] },
       [.enqueued e.config.rid])
    else
      ({ s with isRefreshing := true, inFlight := some (toWaiter e) },
       [.refreshCall])
  else
    (s, [.rejected e.errId])

/-- How a waiter resumes once the refresh outcome `success` is known:
on `true` it sets `_retry = true` and re-issues the request (lines 62–64 for
queued waiters, lines 82–83 for the initiator); on `false` it runs
`handleRefreshFailure` with its own original error (lines 67, 89). -/
def resumeWaiter (currentPath : String) (success : Bool) (w : Waiter) : Action :=
  if success then
    .retried w.req.rid true
  else
    .failedOriginal (handleRefreshFailure w.req currentPath w.errId)

/-- Resolution of the in-flight refresh round-trip (api.ts lines 78–90):
`isRefreshing` is reset, `onRefreshComplete` notifies every subscriber with
the outcome and empties the list (lines 32–35), the initiator's continuation
resumes.  The initiator's own action runs synchronously before the
subscribers' continuations (which were scheduled as microtasks by
`resolve`), hence it heads the action list. -/
def refreshResolve (currentPath : String) (success : Bool) (s : CoordState) :
    CoordState × List Action :=
  match s.inFlight with
  | none => (s, [])
  | some w =>
    (initState,
     resumeWaiter currentPath success w
       :: s.refreshSubscribers.map (resumeWaiter currentPath success))

/-- Events driving the coordinator. -/
inductive Event where
  /-- the response interceptor's error handler is invoked with `e`. -/
  | err (e : ApiError)
  /-- the in-flight `axios.post(.../refresh)` promise settles. -/
  | refreshDone (success : Bool)
  /-- the caller aborts request `rid` (e.g. navigation away).  api.ts
  contains no cancellation handling: nothing in the file reads an abort
  signal, and `refreshSubscribers` is modified only by the push in
  `waitForRefresh` (line 40) and the reset in `onRefreshComplete` (line 34),
  so this event leaves the coordinator state untouched. -/
  | abort (rid : Nat)
deriving DecidableEq, Repr

/-- One event-loop turn of the coordinator. -/
def step (currentPath : String) (s : CoordState) : Event → CoordState × List Action
  | .err e => interceptorOnError s e
  | .refreshDone b => refreshResolve currentPath b s
  | .abort _ => (s, [])

/-- Run the coordinator over a sequence of events, accumulating actions. -/
def run (currentPath : String) (s : CoordState) : List Event → CoordState × List Action
  | [] => (s, [])
  | ev :: rest =>
    ((run currentPath (step currentPath s ev).1 rest).1,
     (step currentPath s ev).2 ++ (run currentPath (step currentPath s ev).1 rest).2)

/-- A 401 error eligible for the refresh cycle: not from an auth endpoint,
not already retried. -/
def Fresh401 (e : ApiError) : Prop :=
  e.status = some 401 ∧ isAuthEndpoint e.config.url = false ∧ e.config.retry = false

instance : DecidablePred Fresh401 := fun e => by
  unfold Fresh401; infer_instance

/- ---------------------------------------------------------------------- -/
/- AuthContext.tsx                                                        -/
/- ---------------------------------------------------------------------- -/

/-- AuthContext.tsx lines 5–9. -/
structure User where
  id : String
  username : String
  email : String
deriving DecidableEq, Repr

/-- The auth provider's state relevant to logout: the `user` React state. -/
structure AuthState where
  user : Option User
deriving DecidableEq, Repr

/-- AuthContext.tsx line 79: `isAuthenticated: !!user`. -/
def isAuthenticated (s : AuthState) : Bool :=
  s.user.isSome

/-- Observable result of a `logout()` call: whether its promise fulfilled
(rather than rejected) and whether the catch branch logged an error. -/
structure LogoutOutcome where
  fulfilled : Bool
  loggedError : Bool
deriving DecidableEq, Repr

/-- AuthContext.tsx lines 64–73: `try { await api.post('/api/auth/logout') }
catch (error) { console.error(...) } finally { setUser(null) }`.
`serverResult` is the outcome of the server round-trip (`Except` over the
failure's status code); the catch swallows it, the finally always clears
the user, and the function returns a fulfilled promise either way. -/
def logout (s : AuthState) (serverResult : Except (Option Nat) Unit) :
    AuthState × LogoutOutcome :=
  match serverResult with
  | .ok _ => ({ s with user := none }, { fulfilled := true, loggedError := false })
  | .error _ => ({ s with user := none }, { fulfilled := true, loggedError := true })


/-- Running a concatenated event list is running the pieces in sequence. -/
theorem run_append (path : String) (l1 l2 : List Event) (s : CoordState) :
    run path s (l1 ++ l2)
      = ((run path (run path s l1).1 l2).1,
         (run path s l1).2 ++ (run path (run path s l1).1 l2).2) := by
  induction l1 generalizing s with
  | nil => simp [run]
  | cons ev rest ih => simp [run, ih, List.append_assoc]

/-- While a refresh is in flight, every fresh 401 only appends its
continuation to the wait queue and issues no refresh call. -/
theorem run_enqueue (path : String) (es : List ApiError) (s : CoordState)
    (hs : s.isRefreshing = true) (h : ∀ e ∈ es, Fresh401 e) :
    run path s (es.map Event.err)
      = ({ s with refreshSubscribers := s.refreshSubscribers ++ es.map toWaiter },
         es.map fun e => Action.enqueued e.config.rid) := by
  induction es generalizing s with
  | nil => simp [run]
  | cons e rest ih =>
    obtain ⟨h1, h2, h3⟩ := h e (List.mem_cons_self e rest)
    have hrest : ∀ x ∈ rest, Fresh401 x := fun x hx => h x (List.mem_cons_of_mem e hx)
    have hstep : step path s (Event.err e)
        = ({ s with refreshSubscribers := s.refreshSubscribers ++ [toWaiter e] },
           [Action.enqueued e.config.rid]) := by
      simp [step, interceptorOnError, h1, h2, h3, hs]
    have ih' := ih { s with refreshSubscribers := s.refreshSubscribers ++ [toWaiter e] } hs hrest
    simp [run, hstep, ih', List.append_assoc]


/-- C1: starting idle, for any N ≥ 1 requests that each receive a 401 (none
auth-endpoint, none already retried) followed by the refresh resolution,
exactly one refresh call is made — the first 401 starts it, every later 401
only enqueues — and every one of the N requests is resumed from that one
refresh's outcome `b`. -/
theorem singleFlightRefresh (path : String) (b : Bool) (e1 : ApiError)
    (rest : List ApiError) (h1 : Fresh401 e1) (h2 : ∀ e ∈ rest, Fresh401 e) :
    run path initState ((e1 :: rest).map Event.err ++ [Event.refreshDone b])
      = (initState,
         Action.refreshCall
           :: ((rest.map fun e => Action.enqueued e.config.rid)
             ++ (e1 :: rest).map fun e => resumeWaiter path b (toWaiter e)))
    ∧ (Action.refreshCall
         :: ((rest.map fun e => Action.enqueued e.config.rid)
           ++ (e1 :: rest).map fun e => resumeWaiter path b (toWaiter e))).count
        Action.refreshCall = 1 := by
  obtain ⟨h11, h12, h13⟩ := h1
  have hstep1 : step path initState (Event.err e1)
      = (⟨true, some (toWaiter e1), []⟩, [Action.refreshCall]) := by
    simp [step, interceptorOnError, h11, h12, h13, initState]
  have henq := run_enqueue path rest ⟨true, some (toWaiter e1), []⟩ rfl h2
  have hfirst : run path initState ((e1 :: rest).map Event.err)
      = (⟨true, some (toWaiter e1), rest.map toWaiter⟩,
         Action.refreshCall :: rest.map fun e => Action.enqueued e.config.rid) := by
    rw [List.map_cons]
    simp [run, hstep1, henq]
  have hdone : step path ⟨true, some (toWaiter e1), rest.map toWaiter⟩
      (Event.refreshDone b)
      = (initState,
         resumeWaiter path b (toWaiter e1)
           :: (rest.map toWaiter).map (resumeWaiter path b)) := by
    simp [step, refreshResolve]
  constructor
  · rw [run_append, hfirst]
    simp [run, hdone, List.map_map, List.append_assoc]
  · cases b <;> simp [List.count_cons, List.count_eq_zero, resumeWaiter]

/-- Witness for C1 at two concrete requests and a successful refresh. -/
theorem singleFlightRefresh_witness :
    run "/home" initState
      (([⟨some 401, ⟨"/api/posts", false, false, 1⟩, 11⟩,
         ⟨some 401, ⟨"/api/posts/2", false, false, 2⟩, 12⟩] : List ApiError).map
          Event.err ++ [Event.refreshDone true])
      = (initState,
         Action.refreshCall
           :: ((([⟨some 401, ⟨"/api/posts/2", false, false, 2⟩, 12⟩] : List ApiError).map
                  fun e => Action.enqueued e.config.rid)
             ++ ([⟨some 401, ⟨"/api/posts", false, false, 1⟩, 11⟩,
                  ⟨some 401, ⟨"/api/posts/2", false, false, 2⟩, 12⟩] : List ApiError).map
                  fun e => resumeWaiter "/home" true (toWaiter e))) :=
  (singleFlightRefresh "/home" true ⟨some 401, ⟨"/api/posts", false, false, 1⟩, 11⟩
    [⟨some 401, ⟨"/api/posts/2", false, false, 2⟩, 12⟩] (by decide) (by decide)).1


/-- C2: a 401 on a request already marked `_retry` is rejected with its own
error immediately: the coordinator state (flag and queue) is unchanged, no
refresh is started and nothing is enqueued. -/
theorem retriedRequestNotReentered (s : CoordState) (e : ApiError)
    (h401 : e.status = some 401) (hr : e.config.retry = true) :
    interceptorOnError s e = (s, [Action.rejected e.errId]) := by
  simp [interceptorOnError, h401, hr]

/-- Witness for C2: a retried request, 401 again, in a refreshing state. -/
theorem retriedRequestNotReentered_witness :
    interceptorOnError ⟨true, none, []⟩ ⟨some 401, ⟨"/api/posts", true, false, 3⟩, 33⟩
      = (⟨true, none, []⟩, [Action.rejected 33]) :=
  retriedRequestNotReentered ⟨true, none, []⟩
    ⟨some 401, ⟨"/api/posts", true, false, 3⟩, 33⟩ rfl rfl

/-- C3: a 401 whose request targets one of the authentication endpoints
(`/api/auth/me`, `/api/auth/login`, `/api/auth/logout`, `/api/auth/refresh`)
is rejected with its own error immediately: never enqueued, never retried,
and no refresh call is triggered — the state is returned unchanged. -/
theorem authEndpointPropagatesImmediately (s : CoordState) (e : ApiError)
    (h401 : e.status = some 401) (hmem : e.config.url ∈ SKIP_AUTH_REDIRECT) :
    interceptorOnError s e = (s, [Action.rejected e.errId]) := by
  have hauth : isAuthEndpoint e.config.url = true := by
    simp only [SKIP_AUTH_REDIRECT, List.mem_cons, List.not_mem_nil, or_false] at hmem
    rcases hmem with h | h | h | h <;> rw [h] <;> decide
  simp [interceptorOnError, h401, hauth]

/-- Witness for C3: the current-identity check `/api/auth/me`. -/
theorem authEndpointPropagatesImmediately_witness :
    interceptorOnError ⟨false, none, []⟩ ⟨some 401, ⟨"/api/auth/me", false, false, 4⟩, 44⟩
      = (⟨false, none, []⟩, [Action.rejected 44]) :=
  authEndpointPropagatesImmediately ⟨false, none, []⟩
    ⟨some 401, ⟨"/api/auth/me", false, false, 4⟩, 44⟩ rfl (by decide)

/-- C9: any error whose status is not 401 — including errors with no
response at all — is rejected with the original error unchanged, and the
coordinator state (flag, queue) and the request's retry marker are exactly
as before. -/
theorem non401LeavesStateUntouched (s : CoordState) (e : ApiError)
    (h : e.status ≠ some 401) :
    interceptorOnError s e = (s, [Action.rejected e.errId]) := by
  simp [interceptorOnError, h]

/-- Witness for C9: a network error with no response, during a refresh. -/
theorem non401LeavesStateUntouched_witness :
    interceptorOnError ⟨true, none, [⟨⟨"/api/x", false, false, 9⟩, 99⟩]⟩
      ⟨none, ⟨"/api/y", false, false, 5⟩, 55⟩
      = (⟨true, none, [⟨⟨"/api/x", false, false, 9⟩, 99⟩]⟩, [Action.rejected 55]) :=
  non401LeavesStateUntouched ⟨true, none, [⟨⟨"/api/x", false, false, 9⟩, 99⟩]⟩
    ⟨none, ⟨"/api/y", false, false, 5⟩, 55⟩ (by decide)


/-- C4: when the in-flight refresh fails, the coordinator returns to the
idle state (flag cleared, queue empty), the initiator and every queued
request surface their own original 401 errors (via `handleRefreshFailure`,
not a new error), and afterwards any fresh 401 is permitted to start its own
refresh cycle — no permanent lockout. -/
theorem refreshFailureDrainsAndUnlocks (path : String) (s : CoordState)
    (w : Waiter) (hf : s.inFlight = some w) :
    run path s [Event.refreshDone false]
      = (initState,
         Action.failedOriginal (handleRefreshFailure w.req path w.errId)
           :: s.refreshSubscribers.map fun v =>
                Action.failedOriginal (handleRefreshFailure v.req path v.errId))
    ∧ ∀ e : ApiError, Fresh401 e →
        interceptorOnError initState e
          = (⟨true, some (toWaiter e), []⟩, [Action.refreshCall]) := by
  constructor
  · simp [run, step, refreshResolve, hf, resumeWaiter]
  · rintro e ⟨h1, h2, h3⟩
    simp [interceptorOnError, h1, h2, h3, initState]

/-- Witness for C4: failed refresh with one queued request, then a fresh 401. -/
theorem refreshFailureDrainsAndUnlocks_witness :
    (run "/posts/7"
        ⟨true, some ⟨⟨"/api/a", false, false, 1⟩, 11⟩,
          [⟨⟨"/api/b", false, false, 2⟩, 12⟩]⟩ [Event.refreshDone false]
      = (initState,
         Action.failedOriginal
             (handleRefreshFailure ⟨"/api/a", false, false, 1⟩ "/posts/7" 11)
           :: (⟨true, some ⟨⟨"/api/a", false, false, 1⟩, 11⟩,
                [⟨⟨"/api/b", false, false, 2⟩, 12⟩]⟩ : CoordState).refreshSubscribers.map
                fun v => Action.failedOriginal (handleRefreshFailure v.req "/posts/7" v.errId)))
    ∧ ∀ e : ApiError, Fresh401 e →
        interceptorOnError initState e
          = (⟨true, some (toWaiter e), []⟩, [Action.refreshCall]) :=
  refreshFailureDrainsAndUnlocks "/posts/7"
    ⟨true, some ⟨⟨"/api/a", false, false, 1⟩, 11⟩,
      [⟨⟨"/api/b", false, false, 2⟩, 12⟩]⟩
    ⟨⟨"/api/a", false, false, 1⟩, 11⟩ rfl

/-- C5: when the in-flight refresh succeeds, the coordinator returns to the
idle state with an empty queue, and the initiator as well as every queued
request is retried exactly once with its retry marker (`_retry`) set; a
second 401 on such a retried request is rejected outright, never re-queued. -/
theorem refreshSuccessRetriesOnce (path : String) (s : CoordState)
    (w : Waiter) (hf : s.inFlight = some w) :
    run path s [Event.refreshDone true]
      = (initState,
         Action.retried w.req.rid true
           :: s.refreshSubscribers.map fun v => Action.retried v.req.rid true)
    ∧ ∀ (s' : CoordState) (e : ApiError),
        e.status = some 401 → e.config.retry = true →
        interceptorOnError s' e = (s', [Action.rejected e.errId]) := by
  constructor
  · simp [run, step, refreshResolve, hf, resumeWaiter]
  · intro s' e h1 h2
    simp [interceptorOnError, h1, h2]

/-- Witness for C5: successful refresh with one queued request. -/
theorem refreshSuccessRetriesOnce_witness :
    (run "/posts/7"
        ⟨true, some ⟨⟨"/api/a", false, false, 1⟩, 11⟩,
          [⟨⟨"/api/b", false, false, 2⟩, 12⟩]⟩ [Event.refreshDone true]
      = (initState,
         Action.retried 1 true
           :: (⟨true, some ⟨⟨"/api/a", false, false, 1⟩, 11⟩,
                [⟨⟨"/api/b", false, false, 2⟩, 12⟩]⟩ : CoordState).refreshSubscribers.map
                fun v => Action.retried v.req.rid true))
    ∧ ∀ (s' : CoordState) (e : ApiError),
        e.status = some 401 → e.config.retry = true →
        interceptorOnError s' e = (s', [Action.rejected e.errId]) :=
  refreshSuccessRetriesOnce "/posts/7"
    ⟨true, some ⟨⟨"/api/a", false, false, 1⟩, 11⟩,
      [⟨⟨"/api/b", false, false, 2⟩, 12⟩]⟩
    ⟨⟨"/api/a", false, false, 1⟩, 11⟩ rfl

/-- C10: when the refresh round-trip resolves (either outcome `b`), the
drain gives every queued continuation exactly one resume action carrying
that outcome — the action list is exactly one entry per waiter, in queue
order, after the initiator's — and the queue is left empty, so no callback
is notified twice and none survives into the next refresh cycle. -/
theorem drainNotifiesEachWaiterOnce (path : String) (s : CoordState)
    (w : Waiter) (b : Bool) (hf : s.inFlight = some w) :
    run path s [Event.refreshDone b]
      = (initState,
         resumeWaiter path b w :: s.refreshSubscribers.map (resumeWaiter path b))
    ∧ (run path s [Event.refreshDone b]).1.refreshSubscribers = [] := by
  have h : run path s [Event.refreshDone b]
      = (initState,
         resumeWaiter path b w :: s.refreshSubscribers.map (resumeWaiter path b)) := by
    simp [run, step, refreshResolve, hf]
  exact ⟨h, by rw [h]; rfl⟩

/-- Witness for C10: drain with two queued waiters, failed refresh. -/
theorem drainNotifiesEachWaiterOnce_witness :
    (run "/home"
        ⟨true, some ⟨⟨"/api/a", false, false, 1⟩, 11⟩,
          [⟨⟨"/api/b", false, false, 2⟩, 12⟩, ⟨⟨"/api/c", false, false, 3⟩, 13⟩]⟩
        [Event.refreshDone false]
      = (initState,
         resumeWaiter "/home" false ⟨⟨"/api/a", false, false, 1⟩, 11⟩
           :: (⟨true, some ⟨⟨"/api/a", false, false, 1⟩, 11⟩,
                [⟨⟨"/api/b", false, false, 2⟩, 12⟩,
                 ⟨⟨"/api/c", false, false, 3⟩, 13⟩]⟩ : CoordState).refreshSubscribers.map
                (resumeWaiter "/home" false)))
    ∧ (run "/home"
        ⟨true, some ⟨⟨"/api/a", false, false, 1⟩, 11⟩,
          [⟨⟨"/api/b", false, false, 2⟩, 12⟩, ⟨⟨"/api/c", false, false, 3⟩, 13⟩]⟩
        [Event.refreshDone false]).1.refreshSubscribers = [] :=
  drainNotifiesEachWaiterOnce "/home"
    ⟨true, some ⟨⟨"/api/a", false, false, 1⟩, 11⟩,
      [⟨⟨"/api/b", false, false, 2⟩, 12⟩, ⟨⟨"/api/c", false, false, 3⟩, 13⟩]⟩
    ⟨⟨"/api/a", false, false, 1⟩, 11⟩ false rfl


/-- C6 counterexample: a request fails with 401 while the user is on
`/editor/new`, the refresh fails, and the coordinator's
`handleRefreshFailure` assigns `window.location.href` (outcome `redirected =
true`): the user IS navigated away from their current page — the claim that
the failure is surfaced without redirecting away is false. -/
theorem refreshFailureRedirectsAway :
    run "/editor/new" initState
      [Event.err ⟨some 401, ⟨"/api/posts/1", false, false, 5⟩, 42⟩,
       Event.refreshDone false]
      = (initState, [Action.refreshCall, Action.failedOriginal ⟨true, 42⟩]) := rfl

/-- C6 amended: on refresh failure each affected request is rejected with
its original error, and the browser is redirected to the login page —
navigating away from the current page — unless the request set
`_skipAuthRedirect` or the current path is already `/login`; the coordinator
performs no preservation of in-progress input. -/
theorem refreshFailureOutcome (config : Req) (currentPath : String) (errId : Nat) :
    handleRefreshFailure config currentPath errId
      = ⟨!config.skipAuthRedirect && currentPath != "/login", errId⟩ := by
  unfold handleRefreshFailure
  cases hc : config.skipAuthRedirect <;>
    by_cases h : currentPath = "/login" <;> simp [hc, h]

/-- C7 counterexample: request 2's 401 is enqueued while request 1's refresh
is in flight; the caller then aborts request 2, yet its continuation is
still in the wait queue — a dangling entry remains, refuting the claim that
the coordinator removes canceled continuations. -/
theorem abortLeavesQueueEntry :
    (run "/home" initState
      [Event.err ⟨some 401, ⟨"/api/posts", false, false, 1⟩, 11⟩,
       Event.err ⟨some 401, ⟨"/api/posts/2", false, false, 2⟩, 12⟩,
       Event.abort 2]).1.refreshSubscribers
      = [⟨⟨"/api/posts/2", false, false, 2⟩, 12⟩] := rfl

/-- C7 amended: a caller-side abort has no effect on the coordinator at all
(api.ts has no cancellation handling): the aborted request's continuation
stays in the wait queue and the in-flight refresh is untouched; queue
entries are only cleared when the refresh resolves and the drain empties the
whole queue. -/
theorem abortHasNoCoordinatorEffect (path : String) (s : CoordState) (rid : Nat) :
    step path s (Event.abort rid) = (s, []) := rfl

/-- C8: `logout` always fulfills (its promise never rejects) and always
clears the local session (`user = null`, `isAuthenticated = false`), whatever
the server round-trip did; a second `logout` yields the same externally
observable result (fulfilled, session cleared) as the first. -/
theorem logoutAlwaysSucceedsIdempotent (s : AuthState)
    (r r' : Except (Option Nat) Unit) :
    (logout s r).2.fulfilled = true
    ∧ (logout s r).1.user = none
    ∧ isAuthenticated (logout s r).1 = false
    ∧ (logout (logout s r).1 r').1 = (logout s r).1
    ∧ (logout (logout s r).1 r').2.fulfilled = (logout s r).2.fulfilled := by
  cases r <;> cases r' <;> simp [logout, isAuthenticated]

end WebBlog
